import Mathlib

/-!
Verification of the CORD-19 metadata analysis pipeline
(Benjabella/Frameworks_Assignment).

The repository loads a table of publication metadata, cleans a handful of
columns (title, abstract, journal, publish date), derives year / word-count
features and aggregates the result (yearly counts, journal ranking, title
word frequency, missing-data profile).

Shallow embedding conventions:
* a pandas cell is `Option α` (`none` models NaN/NaT);
* a dataframe is a `List` of records, one structure field per column;
* text is `Str := List Nat` (Unicode code points, ASCII in practice), so
  Python's `str.strip`, `str.title`, `str.split` and the `\b[a-zA-Z]{3,}\b`
  regex are modelled character by character;
* every cleaning variant of the repository is embedded separately:
  `DataCleaning` for src/data_cleaning.py, `MainPy` for src/src/main.py,
  `Preprocess` for src/src/data/preprocess_data.py.
-/

/-- Text is modelled as the list of Unicode code points. -/
abbrev Str := List Nat

/-- Code points of a Lean string literal, for writing concrete tables. -/
def String.codes (s : String) : List Nat := s.toList.map Char.toNat

/-- ASCII whitespace, as recognised by Python `str.split` / `str.strip`. -/
def isSpaceN (c : Nat) : Bool := c == 32 || c == 9 || c == 10 || c == 13 || c == 11 || c == 12

/-- ASCII decimal digit. -/
def isDigitN (c : Nat) : Bool := decide (48 ≤ c ∧ c ≤ 57)

/-- ASCII uppercase letter. -/
def isUpperN (c : Nat) : Bool := decide (65 ≤ c ∧ c ≤ 90)

/-- ASCII lowercase letter. -/
def isLowerN (c : Nat) : Bool := decide (97 ≤ c ∧ c ≤ 122)

/-- ASCII letter. -/
def isAlphaN (c : Nat) : Bool := isUpperN c || isLowerN c

/-- Regex word character (`\w` over ASCII): letter, digit or underscore. -/
def isWordCharN (c : Nat) : Bool := isAlphaN c || isDigitN c || c == 95

/-- Lowercase one ASCII character (Python `str.lower`, per character). -/
def lowerN (c : Nat) : Nat := if 65 ≤ c ∧ c ≤ 90 then c + 32 else c

/-- Uppercase one ASCII character (Python `str.upper`, per character). -/
def upperN (c : Nat) : Nat := if 97 ≤ c ∧ c ≤ 122 then c - 32 else c

/-- Python `str.lower` on a whole string. -/
def lowerStr (s : Str) : Str := s.map lowerN

/-- Python `str.strip()`: remove leading and trailing whitespace. -/
def pyStrip (s : Str) : Str :=
  ((s.dropWhile isSpaceN).reverse.dropWhile isSpaceN).reverse

/-- Worker for `pyTitle`; the flag records whether the previous character
    was cased (a letter, over ASCII). -/
def pyTitleGo : Bool → Str → Str
  | _, [] => []
  | prev, c :: cs =>
    (if isAlphaN c then (if prev then lowerN c else upperN c) else c)
      :: pyTitleGo (isAlphaN c) cs

/-- Python `str.title()`: a letter is uppercased when the previous character
    is not cased, lowercased otherwise; other characters pass through. -/
def pyTitle (s : Str) : Str := pyTitleGo false s

/-- Group a string into segments, starting a fresh segment after each
    whitespace character (segments may be empty). -/
def wsGroups (s : Str) : List Str :=
  s.foldr (fun c acc =>
    if isSpaceN c then [] :: acc else (c :: acc.headD []) :: acc.tail) [[]]

/-- Python `str.split()` with no argument: split on whitespace runs,
    dropping empty fields. -/
def pySplit (s : Str) : List Str := (wsGroups s).filter (fun w => !w.isEmpty)

/-- `len(str(x).split())`: the word count used for the derived
    `abstract_word_count` / `title_word_count` columns. -/
def wordCount (s : Str) : Nat := (pySplit s).length

/-- Scanner state for `findWords`: `run` is the current letter run
    (reversed), `bad` marks a letter run with no left word boundary,
    `ok` tells whether a run starting at the next character would have a
    left word boundary, `acc` holds the tokens found so far. -/
structure FWState where
  run : Str
  bad : Bool
  ok : Bool
  acc : List Str
deriving DecidableEq

/-- Close a letter run: it is a token when it has length at least 3. -/
def fwEmit (run : Str) (acc : List Str) : List Str :=
  if 3 ≤ run.length then acc ++ [run.reverse] else acc

/-- One character step of the `\b[a-zA-Z]{3,}\b` scanner. -/
def fwStep (st : FWState) (c : Nat) : FWState :=
  if isAlphaN c then
    if !st.run.isEmpty then { st with run := c :: st.run }
    else if st.bad then st
    else if st.ok then { st with run := [c] }
    else { st with bad := true }
  else
    { run := [], bad := false, ok := !isWordCharN c,
      acc := if isWordCharN c then st.acc else fwEmit st.run st.acc }

/-- `re.findall(r'\b[a-zA-Z]{3,}\b', s)`: maximal runs of letters of length
    at least 3 whose neighbouring characters (if any) are not word
    characters. -/
def findWords (s : Str) : List Str :=
  let st := s.foldl fwStep ⟨[], false, true, []⟩
  fwEmit st.run st.acc

/-- Split on a separator character, keeping empty fields
    (Python `s.split(sep)`). -/
def splitSep (sep : Nat) (s : Str) : List Str :=
  s.foldr (fun c acc =>
    if c == sep then [] :: acc else (c :: acc.headD []) :: acc.tail) [[]]

/-- Numeric value of a digit string. -/
def digitsVal (s : Str) : Nat := s.foldl (fun a c => a * 10 + (c - 48)) 0

/-- A non-empty all-digit field, or `none`. -/
def numField (s : Str) : Option Nat :=
  if !s.isEmpty && s.all isDigitN then some (digitsVal s) else none

/-- Modelled approximation of `pandas.to_datetime(x, errors='coerce')` on a
    single text value: ISO-style `YYYY`, `YYYY-MM` and `YYYY-MM-DD` dates
    parse to a (year, month, day) triple; any other text is unparseable and
    coerced to a missing value (`none`, modelling NaT).  No exception is
    ever raised: the function is total. -/
def parseDate (s : Str) : Option (Nat × Nat × Nat) :=
  match splitSep 45 s with
  | [y] =>
    match numField y with
    | some yy => if y.length == 4 then some (yy, 1, 1) else none
    | none => none
  | [y, m] =>
    match numField y, numField m with
    | some yy, some mm =>
      if y.length == 4 && decide (1 ≤ mm ∧ mm ≤ 12) then some (yy, mm, 1) else none
    | _, _ => none
  | [y, m, d] =>
    match numField y, numField m, numField d with
    | some yy, some mm, some dd =>
      if y.length == 4 && decide (1 ≤ mm ∧ mm ≤ 12) && decide (1 ≤ dd ∧ dd ≤ 31)
      then some (yy, mm, dd) else none
    | _, _, _ => none
  | _ => none

/-- `pandas.Series.fillna` on a single cell. -/
def fillna (v : α) : Option α → Option α
  | none => some v
  | some x => some x

/-- One raw row of metadata.csv, restricted to the columns the pipeline
    reads; a `none` cell is a pandas NaN. -/
structure RawRecord where
  title : Option Str
  abstract : Option Str
  journal : Option Str
  publish_time : Option Str
deriving DecidableEq

/-- One cleaned row: the raw columns after filling plus the derived
    `year`, word-count and `has_abstract` columns. -/
structure CleanedRecord where
  title : Option Str
  abstract : Option Str
  journal : Option Str
  publish_time : Option (Nat × Nat × Nat)
  year : Option Nat
  abstract_word_count : Nat
  title_word_count : Nat
  has_abstract : Bool
deriving DecidableEq

/-- Fill value for missing titles. -/
def unknownTitle : Str := "Unknown Title".codes

/-- Fill value for missing journals. -/
def unknownJournal : Str := "Unknown Journal".codes

/-- Default name used by `safe_value_counts` in src/src/app/app.py. -/
def unknownName : Str := "Unknown".codes

namespace DataCleaning

/-- Journal cell produced by clean_and_prepare_data in
    src/src/data/data_cleaning.py (lines 44-45): fill NaN with
    "Unknown Journal", then `str.strip().str.title()`. -/
def cleanJournalValue (j : Option Str) : Option Str :=
  (fillna unknownJournal j).map (fun s => pyTitle (pyStrip s))

/-- Row-wise action of `clean_and_prepare_data`
    (src/src/data/data_cleaning.py): fill missing title/abstract, parse
    `publish_time` with coercion and take its year — the year is NOT filled
    when the date is missing or unparseable — derive the word counts and
    `has_abstract`, and fill + strip/title-case the journal.  The column
    selection of lines 17-24 is implicit: the record type carries exactly
    the retained analysis columns. -/
def cleanRecord (r : RawRecord) : CleanedRecord :=
  let title := fillna unknownTitle r.title
  let abstract := fillna [] r.abstract
  let pt := r.publish_time.bind parseDate
  let awc := wordCount (abstract.getD [])
  { title := title
    abstract := abstract
    journal := cleanJournalValue r.journal
    publish_time := pt
    year := pt.map (fun d => d.1)
    abstract_word_count := awc
    title_word_count := wordCount (title.getD [])
    has_abstract := decide (0 < awc) }

/-- `clean_and_prepare_data` of src/src/data/data_cleaning.py: the row-wise
    cleaning applied to every row; no row is dropped. -/
def clean_and_prepare_data (df : List RawRecord) : List CleanedRecord :=
  df.map cleanRecord

/-- State-passing view of the call `clean_and_prepare_data(df)`: line 11
    copies `df` into `df_clean` and every subsequent assignment targets
    `df_clean`, so the call returns the cleaned table (first component)
    and leaves the caller's `df` exactly as it was (second component). -/
def cleanCall (df : List RawRecord) : List CleanedRecord × List RawRecord :=
  (clean_and_prepare_data df, df)

/-- The raw columns the embedding tracks, with their accessors, in
    dataframe column order. -/
def rawColumns : List (String × (RawRecord → Option Str)) :=
  [("title", fun r => r.title), ("abstract", fun r => r.abstract),
   ("journal", fun r => r.journal), ("publish_time", fun r => r.publish_time)]

/-- `df.isnull().sum() / len(df) * 100` for one column, as an exact
    rational. -/
def missingPercent (df : List RawRecord) (col : RawRecord → Option Str) : ℚ :=
  ((df.countP (fun r => (col r).isNone) : ℚ) / (df.length : ℚ)) * 100

/-- The (column, missing-percentage) pairs for all tracked columns. -/
def missingPercents (df : List RawRecord) : List (String × ℚ) :=
  rawColumns.map (fun c => (c.1, missingPercent df c.2))

/-- `analyze_missing_data` (src/src/data/data_cleaning.py, lines 50-61):
    per-column missing percentage, restricted to columns with a strictly
    positive percentage, sorted descending by percentage. -/
def analyze_missing_data (df : List RawRecord) : List (String × ℚ) :=
  ((missingPercents df).filter (fun p => decide (0 < p.2))).insertionSort
    (fun a b => b.2 ≤ a.2)

end DataCleaning

namespace MainPy

/-- Row-wise `clean_and_prepare_data` of src/src/main.py (lines 69-107):
    fill missing title/abstract/journal, parse `publish_time` with
    coercion, set `year` to the parsed year with NaN filled by 2020
    (line 97), and derive the word counts and `has_abstract`.  This
    variant does not case-normalise the journal. -/
def cleanRecord (r : RawRecord) : CleanedRecord :=
  let title := fillna unknownTitle r.title
  let abstract := fillna [] r.abstract
  let pt := r.publish_time.bind parseDate
  let awc := wordCount (abstract.getD [])
  { title := title
    abstract := abstract
    journal := fillna unknownJournal r.journal
    publish_time := pt
    year := some ((pt.map (fun d => d.1)).getD 2020)
    abstract_word_count := awc
    title_word_count := wordCount (title.getD [])
    has_abstract := decide (0 < awc) }

/-- `clean_and_prepare_data` of src/src/main.py applied to a table. -/
def clean_and_prepare_data (df : List RawRecord) : List CleanedRecord :=
  df.map cleanRecord

/-- State-passing view of the call, as in `DataCleaning.cleanCall`:
    line 74 copies `df`, so the caller's table is unchanged. -/
def cleanCall (df : List RawRecord) : List CleanedRecord × List RawRecord :=
  (clean_and_prepare_data df, df)

end MainPy

namespace Preprocess

/-- Year column value computed by `preprocess_and_save`
    (src/src/data/preprocess_data.py, lines 55-61) for one record:
    `to_datetime(..., errors='coerce').dt.year.fillna(2020).astype(int)`. -/
def yearValue (publish_time : Option Str) : Nat :=
  ((publish_time.bind parseDate).map (fun d => d.1)).getD 2020

end Preprocess

/-- `pandas.Series.value_counts()` on the non-null values of a column:
    each distinct value with its number of occurrences, sorted by count
    descending (NaN entries are dropped before counting). -/
def value_counts [DecidableEq α] (xs : List α) : List (α × Nat) :=
  (xs.dedup.map (fun v => (v, xs.count v))).insertionSort (fun a b => b.2 ≤ a.2)

/-- `.sort_index()`: sort (value, count) pairs by value ascending. -/
def sortIndex (l : List (Nat × Nat)) : List (Nat × Nat) :=
  l.insertionSort (fun a b => a.1 ≤ b.1)

/-- Aggregation core of `analyze_publication_trends`
    (src/analysis_visualization.py line 15, src/src/main.py line 114):
    `df['year'].value_counts().sort_index()`.  `value_counts` silently
    drops rows whose year is NaN. -/
def analyze_publication_trends (df : List CleanedRecord) : List (Nat × Nat) :=
  sortIndex (value_counts (df.filterMap (fun r => r.year)))

/-- Journal ranking, parametric in the requested length:
    `df['journal'].value_counts().head(n)`. -/
def journal_ranking (df : List CleanedRecord) (n : Nat) : List (Str × Nat) :=
  (value_counts (df.filterMap (fun r => r.journal))).take n

/-- Aggregation core of `analyze_journals` (src/analysis_visualization.py
    line 35): the journal ranking truncated to the fixed top 15. -/
def analyze_journals (df : List CleanedRecord) : List (Str × Nat) :=
  journal_ranking df 15

/-- `safe_value_counts` of src/src/app/app.py (lines 34-38): when every
    cell is NaN return a single ("Unknown", row count) entry, otherwise
    fill NaN with "Unknown" and take value counts. -/
def safe_value_counts (col : List (Option Str)) : List (Str × Nat) :=
  if col.all (fun v => v.isNone) then [(unknownName, col.length)]
  else value_counts ((col.map (fillna unknownName)).filterMap id)

/-- Journal ranking of the dashboard (src/src/app/app.py lines 117-118):
    `safe_value_counts(filtered_df['journal']).head(top_n)`. -/
def app_journal_ranking (col : List (Option Str)) (n : Nat) : List (Str × Nat) :=
  (safe_value_counts col).take n

/-- Tokenisation core of `analyze_titles` (src/analysis_visualization.py
    lines 49-66), parametric in the stop-word set: join the titles with
    spaces, lowercase, extract alphabetic tokens of length at least 3,
    and drop the stop words. -/
def filteredTitleWords (stop : List Str) (titles : List Str) : List Str :=
  (findWords (lowerStr (List.intercalate [32] titles))).filter
    (fun w => decide (w ∉ stop))

/-- `Counter(filtered_words)[w]`: frequency of one token in the filtered
    title words. -/
def wordFrequency (stop : List Str) (titles : List Str) (w : Str) : Nat :=
  (filteredTitleWords stop titles).count w

/-- The stop-word set named by the specification's tokenisation test case. -/
def stopWordsClaim : List Str := ["covid", "19", "study", "of"].map String.codes

/-- The two titles of the specification's tokenisation test case. -/
def sampleTitles : List Str :=
  ["Covid-19 Study of Lungs", "Lung Study Results"].map String.codes

/-- A file system: maps a path to the table stored there
    (`none` = file absent). -/
def FileSys := String → Option (List RawRecord)

/-- The input path read by the loader. -/
def metadataCsv : String := "metadata.csv"

/-- `load_and_explore_data` (src/data_exploration.py, lines 14-46):
    read metadata.csv; a FileNotFoundError is reported to the user and
    `None` is returned.  The exploration printing is output-only, and CSV
    decoding is abstracted: a present file already holds its table. -/
def load_and_explore_data (fs : FileSys) : Option (List RawRecord) :=
  fs metadataCsv

/-- The artifacts a successful full run of src/main.py writes: the chart
    images of `run_complete_analysis` plus the cleaned-data snapshot. -/
def pipelineArtifacts : List String :=
  ["publications_by_year.png", "top_journals.png", "top_title_words.png",
   "title_wordcloud.png", "abstract_length_distribution.png",
   "cleaned_metadata.csv"]

/-- `main` of src/main.py (lines 7-40): when the loader returns `None`
    (lines 14-16) it returns at once, writing nothing; otherwise the full
    pipeline runs and writes its artifacts. -/
def mainRun (fs : FileSys) : List String :=
  match load_and_explore_data fs with
  | none => []
  | some _ => pipelineArtifacts

/-- A record whose publish date is text no date parser accepts. -/
def exUnparseable : RawRecord :=
  { title := none, abstract := none, journal := none,
    publish_time := some ("not-a-date".codes) }

/-- A one-row table whose single record has an unparseable date and
    missing title/abstract/journal. -/
def exTable1 : List RawRecord := [exUnparseable]

/-- A file system holding no files at all. -/
def emptyFs : FileSys := fun _ => none

/-! ### Helper lemmas -/

theorem fillna_isSome (v : α) (o : Option α) : (fillna v o).isSome := by
  cases o <;> rfl

theorem value_counts_map_snd_sum [DecidableEq α] (xs : List α) :
    ((value_counts xs).map Prod.snd).sum = xs.length := by
  unfold value_counts
  have hperm := List.perm_insertionSort (fun a b : α × Nat => b.2 ≤ a.2)
    (xs.dedup.map (fun v => (v, xs.count v)))
  rw [(hperm.map Prod.snd).sum_eq, List.map_map]
  exact List.sum_map_count_dedup_eq_length xs

theorem sortIndex_map_snd_sum (l : List (Nat × Nat)) :
    ((sortIndex l).map Prod.snd).sum = (l.map Prod.snd).sum :=
  ((List.perm_insertionSort _ l).map Prod.snd).sum_eq

theorem trends_sum (df : List CleanedRecord) :
    ((analyze_publication_trends df).map Prod.snd).sum
      = (df.filterMap (fun r => r.year)).length := by
  unfold analyze_publication_trends
  rw [sortIndex_map_snd_sum, value_counts_map_snd_sum]

theorem value_counts_sorted [DecidableEq α] (xs : List α) :
    (value_counts xs).Pairwise (fun a b => b.2 ≤ a.2) := by
  haveI : IsTotal (α × Nat) (fun a b => b.2 ≤ a.2) :=
    ⟨fun a b => Nat.le_total b.2 a.2⟩
  haveI : IsTrans (α × Nat) (fun a b => b.2 ≤ a.2) :=
    ⟨fun _ _ _ hab hbc => Nat.le_trans hbc hab⟩
  exact List.sorted_insertionSort _ _

theorem mainpy_year_eq (r : RawRecord) :
    (MainPy.cleanRecord r).year
      = some (((r.publish_time.bind parseDate).map (fun d => d.1)).getD 2020) := rfl

theorem mainpy_filterMap_year_length (df : List RawRecord) :
    ((MainPy.clean_and_prepare_data df).filterMap (fun r => r.year)).length
      = df.length := by
  unfold MainPy.clean_and_prepare_data
  rw [List.filterMap_map]
  rw [show ((fun r : CleanedRecord => r.year) ∘ MainPy.cleanRecord)
        = some ∘ (fun r : RawRecord =>
            ((r.publish_time.bind parseDate).map (fun d => d.1)).getD 2020) from rfl]
  rw [List.filterMap_eq_map, List.length_map]

/-! ### Claim C1 -/

/-- Claim C1 as frozen is false on src/src/data/data_cleaning.py: on a
    one-row table whose publish date is unparseable text, the table that
    `clean_and_prepare_data` returns has a null `year` (the variant never
    fills the year column). -/
theorem clean_year_null_example :
    ¬ ∀ r ∈ DataCleaning.clean_and_prepare_data exTable1, r.year.isSome := by
  decide

/-- Claim C1 (amended): after either cleaning variant, zero null values
    remain in the title, abstract and journal columns; the src/src/main.py
    variant additionally guarantees a non-null (integer) year, defaulted
    when the publish date was unparseable, while the data_cleaning.py
    variant leaves the year null in that case. -/
theorem clean_no_null_text (df : List RawRecord) :
    (∀ r ∈ DataCleaning.clean_and_prepare_data df,
      r.title.isSome ∧ r.abstract.isSome ∧ r.journal.isSome)
    ∧ (∀ r ∈ MainPy.clean_and_prepare_data df,
      r.title.isSome ∧ r.abstract.isSome ∧ r.journal.isSome ∧ r.year.isSome) := by
  constructor
  · intro r hr
    obtain ⟨x, _, rfl⟩ := List.mem_map.1 hr
    refine ⟨fillna_isSome _ _, fillna_isSome _ _, ?_⟩
    show (DataCleaning.cleanJournalValue x.journal).isSome
    cases x.journal <;> rfl
  · intro r hr
    obtain ⟨x, _, rfl⟩ := List.mem_map.1 hr
    exact ⟨fillna_isSome _ _, fillna_isSome _ _, fillna_isSome _ _, rfl⟩

/-- Witness for C1 (amended) at the concrete one-row table. -/
theorem clean_no_null_text_witness :
    (DataCleaning.cleanRecord exUnparseable).title.isSome := by
  exact ((clean_no_null_text exTable1).1 (DataCleaning.cleanRecord exUnparseable)
    (by decide)).1

/-! ### Claim C2 -/

/-- Claim C2 as frozen is false on the top-level pipeline: for the
    data_cleaning.py-cleaned one-row table with an unparseable date, the
    yearly counts (which drop the null year) sum to 0, not to the row
    count 1. -/
theorem yearly_counts_undercount_example :
    ((analyze_publication_trends (DataCleaning.clean_and_prepare_data exTable1)).map
        Prod.snd).sum
      ≠ (DataCleaning.clean_and_prepare_data exTable1).length := by
  decide

/-- Claim C2 (amended): the yearly counts of a cleaned table sum to the
    number of rows whose year is non-null; for tables cleaned by
    src/src/main.py (where the year is always filled) this equals the
    total row count. -/
theorem yearly_counts_sum (df : List RawRecord) :
    ((analyze_publication_trends (DataCleaning.clean_and_prepare_data df)).map
        Prod.snd).sum
      = ((DataCleaning.clean_and_prepare_data df).filterMap (fun r => r.year)).length
    ∧ ((analyze_publication_trends (MainPy.clean_and_prepare_data df)).map
        Prod.snd).sum
      = (MainPy.clean_and_prepare_data df).length := by
  refine ⟨trends_sum _, ?_⟩
  rw [trends_sum, mainpy_filterMap_year_length]
  simp [MainPy.clean_and_prepare_data]

/-! ### Claim C3 -/

/-- Claim C3: a record whose publish-date text is unparseable is assigned
    the fixed fallback year 2020, both by src/src/main.py's
    clean_and_prepare_data and by preprocess_data.py's year derivation;
    coercion makes parsing total, so no error is raised. -/
theorem unparseable_date_year_fallback (r : RawRecord) (s : Str)
    (hpt : r.publish_time = some s) (hp : parseDate s = none) :
    (MainPy.cleanRecord r).year = some 2020
    ∧ Preprocess.yearValue r.publish_time = 2020 := by
  constructor
  · rw [mainpy_year_eq, hpt]
    simp [hp]
  · unfold Preprocess.yearValue
    rw [hpt]
    simp [hp]

/-- Witness for C3 at a record whose publish date is "not-a-date". -/
theorem unparseable_date_year_fallback_witness :
    (MainPy.cleanRecord exUnparseable).year = some 2020
    ∧ Preprocess.yearValue exUnparseable.publish_time = 2020 :=
  unparseable_date_year_fallback exUnparseable ("not-a-date".codes) rfl (by decide)

/-! ### Claim C4 -/

/-- Claim C4 as frozen is false: after the call, the table passed in does
    not hold the filled columns — on the concrete one-row table, the
    caller's table is exactly the original, whose journal is still null
    (clean_and_prepare_data copies its input at line 11). -/
theorem clean_in_place_refuted :
    (DataCleaning.cleanCall exTable1).2 = exTable1
    ∧ ¬ ∀ r ∈ (DataCleaning.cleanCall exTable1).2, r.journal.isSome := by
  exact ⟨rfl, by decide⟩

/-- Claim C4 (amended): both cleaning variants copy their input and fill /
    derive on the copy: the caller's table is unchanged by the call, and
    the filled columns appear in the returned fresh table instead. -/
theorem clean_leaves_input_unchanged (df : List RawRecord) :
    (DataCleaning.cleanCall df).2 = df
    ∧ (MainPy.cleanCall df).2 = df
    ∧ ∀ r ∈ (DataCleaning.cleanCall df).1, r.journal.isSome := by
  refine ⟨rfl, rfl, ?_⟩
  intro r hr
  obtain ⟨x, _, rfl⟩ := List.mem_map.1 hr
  show (DataCleaning.cleanJournalValue x.journal).isSome
  cases x.journal <;> rfl

/-- Witness for C4 (amended) at the concrete one-row table. -/
theorem clean_leaves_input_unchanged_witness :
    (DataCleaning.cleanCall exTable1).2 = exTable1
    ∧ (DataCleaning.cleanRecord exUnparseable).journal.isSome :=
  ⟨(clean_leaves_input_unchanged exTable1).1,
   (clean_leaves_input_unchanged exTable1).2.2
     (DataCleaning.cleanRecord exUnparseable) (by decide)⟩

/-! ### Claim C5 -/

/-- Claim C5: for every table and every requested N, the journal ranking
    (group journals, count, truncate to top N) — both the
    analyze_journals core and the dashboard's safe variant — has at most
    N entries, and its counts are sorted non-increasing. -/
theorem journal_ranking_top_n (df : List CleanedRecord) (col : List (Option Str))
    (n : Nat) :
    ((journal_ranking df n).length ≤ n
      ∧ (journal_ranking df n).Pairwise (fun a b => b.2 ≤ a.2))
    ∧ ((app_journal_ranking col n).length ≤ n
      ∧ (app_journal_ranking col n).Pairwise (fun a b => b.2 ≤ a.2)) := by
  refine ⟨⟨List.length_take_le _ _, ?_⟩, ⟨List.length_take_le _ _, ?_⟩⟩
  · exact List.Pairwise.sublist (List.take_sublist _ _) (value_counts_sorted _)
  · unfold app_journal_ranking safe_value_counts
    split
    · exact List.Pairwise.sublist (List.take_sublist _ _)
        (List.pairwise_singleton _ _)
    · exact List.Pairwise.sublist (List.take_sublist _ _) (value_counts_sorted _)

/-! ### Claim C6 -/

/-- Claim C6: on the titles ["Covid-19 Study of Lungs", "Lung Study
    Results"] with stop words {covid, 19, study, of}, the title
    word-frequency operation (lowercase, alphabetic tokens of length at
    least 3, stop words discarded, count) maps lungs to 1 and results to
    1 and has no entry for study. -/
theorem title_word_frequency_example :
    wordFrequency stopWordsClaim sampleTitles ("lungs".codes) = 1
    ∧ wordFrequency stopWordsClaim sampleTitles ("results".codes) = 1
    ∧ wordFrequency stopWordsClaim sampleTitles ("study".codes) = 0 := by
  decide

/-! ### Claim C7 -/

/-- Claim C7: both cleaning variants return exactly one cleaned row per
    input row (no rows dropped), and every returned row carries the
    derived columns: the year (derived from the parsed date; always
    present in the src/src/main.py variant), the abstract word count and
    has_abstract = (abstract word count > 0). -/
theorem clean_row_count_and_derived (df : List RawRecord) :
    (DataCleaning.clean_and_prepare_data df).length = df.length
    ∧ (MainPy.clean_and_prepare_data df).length = df.length
    ∧ (∀ r ∈ DataCleaning.clean_and_prepare_data df,
        r.has_abstract = decide (0 < r.abstract_word_count)
          ∧ r.year = r.publish_time.map (fun d => d.1))
    ∧ ∀ r ∈ MainPy.clean_and_prepare_data df,
        r.has_abstract = decide (0 < r.abstract_word_count) ∧ r.year.isSome := by
  refine ⟨by simp [DataCleaning.clean_and_prepare_data],
          by simp [MainPy.clean_and_prepare_data], ?_, ?_⟩
  · intro r hr
    obtain ⟨x, _, rfl⟩ := List.mem_map.1 hr
    exact ⟨rfl, rfl⟩
  · intro r hr
    obtain ⟨x, _, rfl⟩ := List.mem_map.1 hr
    exact ⟨rfl, rfl⟩

/-- Witness for C7 at the concrete one-row table. -/
theorem clean_row_count_and_derived_witness :
    (MainPy.cleanRecord exUnparseable).has_abstract
      = decide (0 < (MainPy.cleanRecord exUnparseable).abstract_word_count)
    ∧ (MainPy.cleanRecord exUnparseable).year.isSome :=
  (clean_row_count_and_derived exTable1).2.2.2
    (MainPy.cleanRecord exUnparseable) (by decide)

/-! ### Claim C8 -/

/-- Claim C8: when the input file is absent the loader reports the
    failure by returning none instead of raising, and src/main.py's main
    checks this and halts with no artifact written. -/
theorem missing_file_halts (fs : FileSys) (h : fs metadataCsv = none) :
    load_and_explore_data fs = none ∧ mainRun fs = [] := by
  refine ⟨h, ?_⟩
  unfold mainRun load_and_explore_data
  rw [h]

/-- Witness for C8 on the empty file system. -/
theorem missing_file_halts_witness :
    load_and_explore_data emptyFs = none ∧ mainRun emptyFs = [] :=
  missing_file_halts emptyFs rfl

/-! ### Claim C9 -/

/-- Claim C9: the missing-data profile consists of exactly the (column,
    missing-percentage) pairs whose percentage is strictly positive, in
    non-increasing percentage order. -/
theorem missing_data_profile (df : List RawRecord) :
    (DataCleaning.analyze_missing_data df).Pairwise (fun a b => b.2 ≤ a.2)
    ∧ ∀ p : String × ℚ,
        p ∈ DataCleaning.analyze_missing_data df ↔
          p ∈ DataCleaning.missingPercents df ∧ 0 < p.2 := by
  constructor
  · haveI : IsTotal (String × ℚ) (fun a b => b.2 ≤ a.2) :=
      ⟨fun a b => le_total b.2 a.2⟩
    haveI : IsTrans (String × ℚ) (fun a b => b.2 ≤ a.2) :=
      ⟨fun _ _ _ hab hbc => le_trans hbc hab⟩
    exact List.sorted_insertionSort _ _
  · intro p
    unfold DataCleaning.analyze_missing_data
    rw [List.mem_insertionSort, List.mem_filter]
    simp

/-! ### Claim C10 -/

theorem lowerN_cases {c d : Nat} (h : lowerN c = lowerN d) :
    c = d ∨ (65 ≤ c ∧ c ≤ 90 ∧ d = c + 32) ∨ (65 ≤ d ∧ d ≤ 90 ∧ c = d + 32) := by
  unfold lowerN at h
  split_ifs at h <;> omega

theorem upperN_congr {c d : Nat} (h : lowerN c = lowerN d) :
    upperN c = upperN d := by
  rcases lowerN_cases h with h | ⟨h1, h2, h3⟩ | ⟨h1, h2, h3⟩
  · rw [h]
  · unfold upperN; split_ifs <;> omega
  · unfold upperN; split_ifs <;> omega

theorem isAlphaN_congr {c d : Nat} (h : lowerN c = lowerN d) :
    isAlphaN c = isAlphaN d := by
  rcases lowerN_cases h with h | ⟨h1, h2, h3⟩ | ⟨h1, h2, h3⟩
  · rw [h]
  · have hc : isAlphaN c = true := by
      simp only [isAlphaN, isUpperN, isLowerN, Bool.or_eq_true, decide_eq_true_eq]
      omega
    have hd : isAlphaN d = true := by
      simp only [isAlphaN, isUpperN, isLowerN, Bool.or_eq_true, decide_eq_true_eq]
      omega
    rw [hc, hd]
  · have hc : isAlphaN c = true := by
      simp only [isAlphaN, isUpperN, isLowerN, Bool.or_eq_true, decide_eq_true_eq]
      omega
    have hd : isAlphaN d = true := by
      simp only [isAlphaN, isUpperN, isLowerN, Bool.or_eq_true, decide_eq_true_eq]
      omega
    rw [hc, hd]

theorem lowerN_eq_of_not_alpha {c d : Nat} (h : lowerN c = lowerN d)
    (hc : isAlphaN c = false) : c = d := by
  simp only [isAlphaN, isUpperN, isLowerN, Bool.or_eq_false_iff,
    decide_eq_false_iff_not] at hc
  rcases lowerN_cases h with h | ⟨h1, h2, h3⟩ | ⟨h1, h2, h3⟩
  · exact h
  · omega
  · omega

theorem pyTitleGo_congr :
    ∀ (a b : Str) (p : Bool), lowerStr a = lowerStr b →
      pyTitleGo p a = pyTitleGo p b
  | [], [], _, _ => rfl
  | [], _ :: _, _, h => by simp [lowerStr] at h
  | _ :: _, [], _, h => by simp [lowerStr] at h
  | c :: cs, d :: ds, p, h => by
    simp only [lowerStr, List.map_cons, List.cons.injEq] at h
    obtain ⟨h1, h2⟩ := h
    have ha := isAlphaN_congr h1
    unfold pyTitleGo
    rw [ha]
    have tail := pyTitleGo_congr cs ds (isAlphaN d) h2
    rw [tail]
    cases hd : isAlphaN d with
    | true =>
      cases p with
      | true => rw [if_pos rfl, if_pos rfl, if_pos rfl, if_pos rfl, h1]
      | false => rw [if_pos rfl, if_pos rfl, if_neg (by simp), if_neg (by simp),
          upperN_congr h1]
    | false =>
      rw [if_neg (by simp), if_neg (by simp),
        lowerN_eq_of_not_alpha h1 (ha.trans hd)]

theorem pyTitle_congr {a b : Str} (h : lowerStr a = lowerStr b) :
    pyTitle a = pyTitle b :=
  pyTitleGo_congr a b false h

/-- Claim C10: in data_cleaning.py's cleaned table every journal value is
    the whitespace-stripped, title-cased form of the filled journal text,
    and two raw journal strings that agree up to surrounding whitespace
    and letter case are mapped to the same cleaned journal value — hence
    counted as the same journal by the journal ranking. -/
theorem journal_normalised (df : List RawRecord) (s1 s2 : Str)
    (h : lowerStr (pyStrip s1) = lowerStr (pyStrip s2)) :
    (DataCleaning.clean_and_prepare_data df).map (fun r => r.journal)
      = df.map (fun r => some (pyTitle (pyStrip (r.journal.getD unknownJournal))))
    ∧ DataCleaning.cleanJournalValue (some s1)
      = DataCleaning.cleanJournalValue (some s2) := by
  constructor
  · unfold DataCleaning.clean_and_prepare_data
    rw [List.map_map]
    refine List.map_congr_left ?_
    intro x _
    show DataCleaning.cleanJournalValue x.journal = _
    cases x.journal <;> rfl
  · show some (pyTitle (pyStrip s1)) = some (pyTitle (pyStrip s2))
    exact congrArg some (pyTitle_congr h)

/-- Witness for C10: " the lancet " and "The LANCET" get the same cleaned
    journal value. -/
theorem journal_normalised_witness :
    DataCleaning.cleanJournalValue (some (" the lancet ".codes))
      = DataCleaning.cleanJournalValue (some ("The LANCET".codes)) :=
  (journal_normalised [] (" the lancet ".codes) ("The LANCET".codes)
    (by decide)).2
